import Mathlib

/-!
Shallow embedding of `scripts/validate-release.py` (ContainerBar post-release
validation). The script runs seven check functions in sequence, each appending
`[PASS]`/`[FAIL]` results via the global-counter helper `check`, and exits with
status 1 iff any check failed (status 2 on a usage error).

Modelling conventions:
* Every interaction with the outside world (file reads, external commands, the
  network fetch) is a field of an `Env` record holding the value that the
  interaction would produce in this run, as `Except PyExc α`: `.error e` means
  the Python operation raised an exception whose `str` is recorded in `e`.
  Each interaction is also logged in a `Call` trace so that invocation counts
  are observable.
* `subprocess.run` can raise (e.g. `FileNotFoundError` for a missing binary in
  list form, `OSError` on resource exhaustion), so command invocations are
  `Except`-valued too; check functions with no `try/except` propagate such an
  error, exactly as the Python code would let the exception escape `main`.
* Python strings are Lean `String`s; `str.strip`, `str.split("\n")`,
  `str.lower` and substring / membership tests are modelled character-wise
  below (ASCII whitespace; the script only ever meets ASCII here).
* `re.search` is modelled for the literal-only fragment of regex syntax that
  `re.escape` produces (`regexLits`), plus a direct model of the one concrete
  pattern `version\s+"([^"]+)"` used by the Homebrew-cask check
  (`caskSearch`).
-/

/-- Characters Python's `str.strip()` removes (ASCII whitespace; the script
only handles ASCII command output). -/
def pyWs (c : Char) : Bool :=
  c == ' ' || c == '\t' || c == '\n' || c == '\r' || c == '\x0b' || c == '\x0c'

/-- Python `str.strip()`: drop leading and trailing whitespace. -/
def pyStrip (s : String) : String :=
  String.mk (((s.toList.dropWhile pyWs).reverse.dropWhile pyWs).reverse)

/-- Python `str.split("\n")` on a character list: every newline separates,
empty fields are kept, and the empty string yields one empty field. -/
def splitNlChars : List Char → List (List Char)
  | [] => [[]]
  | c :: t =>
    let r := splitNlChars t
    if c == '\n' then [] :: r
    else
      match r with
      | h :: t' => (c :: h) :: t'
      | [] => [[c]]

/-- Python `str.split("\n")`. -/
def pySplitNl (s : String) : List String :=
  (splitNlChars s.toList).map String.mk

/-- Does `hay` start with `needle`? -/
def startsWithChars : List Char → List Char → Bool
  | [], _ => true
  | _ :: _, [] => false
  | a :: as, b :: bs => a == b && startsWithChars as bs

/-- Python's substring test `needle in hay` on character lists. -/
def hasSub (needle : List Char) : List Char → Bool
  | [] => needle.isEmpty
  | b :: bs => startsWithChars needle (b :: bs) || hasSub needle bs

/-- Python `str.lower()` restricted to ASCII (the only case the script
exercises: looking for the marker `accepted`). -/
def lowerStr (s : String) : String :=
  String.mk (s.toList.map Char.toLower)

/-- The characters Python 3.7+ `re.escape` prepends a backslash to. -/
def reSpecials : List Char :=
  ['(', ')', '[', ']', '\x7b', '\x7d', '?', '*', '+', '-', '|', '^', '$',
   '\\', '.', '&', '~', '#', ' ', '\t', '\n', '\r', '\x0b', '\x0c']

/-- Characters that carry regex meaning when they appear unescaped in a
pattern (outside character classes). -/
def regexMetas : List Char :=
  ['.', '^', '$', '*', '+', '?', '\x7b', '\x7d', '[', ']', '\\', '|', '(', ')']

/-- Python `re.escape` (3.7+ behaviour: exactly the characters in
`reSpecials` get a backslash). -/
def reEscapeChars : List Char → List Char
  | [] => []
  | c :: t => (if c ∈ reSpecials then ['\\', c] else [c]) ++ reEscapeChars t

/-- Parse a regex pattern that consists only of literal characters and
backslash-escaped punctuation into the literal character sequence it matches.
Returns `none` on any construct with non-literal regex semantics (unescaped
metacharacter, escape class such as a backslash before an alphanumeric, or a
trailing lone backslash); `re.escape` output never contains those. -/
def regexLits : List Char → Option (List Char)
  | [] => some []
  | c :: t =>
    if c == '\\' then
      match t with
      | [] => none
      | d :: t' => if d.isAlphanum then none else (regexLits t').map (d :: ·)
    else if c ∈ regexMetas then none
    else (regexLits t).map (c :: ·)

/-- `re.search(pat, content)`-as-a-boolean for literal-only patterns: `none`
when the pattern falls outside the literal fragment `regexLits` models. -/
def reSearchLit (pat content : List Char) : Option Bool :=
  (regexLits pat).map (fun lits => hasSub lits content)

/-- The pattern the changelog check builds:
`rf"## \[\x7bre.escape(version)\x7d\]"`. -/
def changelogPattern (version : String) : List Char :=
  '#' :: '#' :: ' ' :: '\\' :: '[' :: (reEscapeChars version.toList ++ ['\\', ']'])

/-- `found = bool(re.search(pattern, content))` in `check_changelog`. The
pattern is produced by `re.escape`, so it always lies in the literal fragment
(`regexLits_changelogPattern` below); the `getD false` default is never hit. -/
def changelogFound (version content : String) : Bool :=
  (reSearchLit (changelogPattern version) content.toList).getD false

/-- Match the regex `version\s+"([^"]+)"` at the head of `l`, returning the
capture group: the literal `version`, then at least one whitespace character
(`\s+` is greedy, and since `"` is not whitespace no backtracking can ever
succeed), then a quote, a nonempty run of non-quote characters, and a closing
quote. -/
def dropLit : List Char → List Char → Option (List Char)
  | [], l => some l
  | _ :: _, [] => none
  | a :: as, b :: bs => if a == b then dropLit as bs else none

/-- One attempted match of `version\s+"([^"]+)"` anchored at the current
position. -/
def caskMatchAt (l : List Char) : Option (List Char) :=
  match dropLit "version".toList l with
  | none => none
  | some r1 =>
    match r1 with
    | [] => none
    | c :: rest =>
      if pyWs c then
        match rest.dropWhile pyWs with
        | '"' :: r3 =>
          let cap := r3.takeWhile (fun d => d != '"')
          if cap.isEmpty then none
          else
            match r3.drop cap.length with
            | '"' :: _ => some cap
            | _ => none
        | _ => none
      else none

/-- `re.search(r'version\s+"([^"]+)"', content)` capture group 1: leftmost
match wins, scanning positions left to right. -/
def caskSearch : List Char → Option (List Char)
  | [] => none
  | c :: t =>
    match caskMatchAt (c :: t) with
    | some g => some g
    | none => caskSearch t

/-- One verification outcome, as recorded by the Python helper `check`:
label, boolean status, detail string (empty when `check` got no detail). -/
structure CheckResult where
  label : String
  passed : Bool
  detail : String
deriving Repr, DecidableEq

/-- Identifier for each external interaction the script performs, used to
trace how often each snapshot is fetched within a run. -/
inductive Call where
  /-- `open(INFO_PLIST); plistlib.load` -/
  | plistRead
  /-- `open(CHANGELOG).read()` -/
  | changelogRead
  /-- `run("git tag -l vX")` -/
  | gitTagCmd
  /-- `open(HOMEBREW_CASK).read()` -/
  | caskRead
  /-- `run("gh release view vX --repo ...")` -/
  | ghViewCmd
  /-- `run("gh release view vX ... --json assets ...")` -/
  | ghAssetsCmd
  /-- `urllib.request.urlopen(APPCAST_URL)` -/
  | appcastFetch
  /-- a `spctl --assess --verbose=2 <APP_BUNDLE>` invocation -/
  | spctlCmd
deriving Repr, DecidableEq

/-- The script's mutable run state: the two global counters `passed` and
`failed`, the ordered `[PASS]`/`[FAIL]` lines (as `CheckResult`s), and the
trace of external interactions performed so far. -/
structure RState where
  passed : Nat
  failed : Nat
  results : List CheckResult
  calls : List Call
deriving Repr, DecidableEq

/-- State at the start of `main`: both counters zero, nothing recorded. -/
def RState.init : RState := ⟨0, 0, [], []⟩

/-- Log one external interaction. -/
def RState.addCall (s : RState) (c : Call) : RState :=
  { s with calls := s.calls ++ [c] }

/-- The Python helper `check(label, condition, detail="")`: bump exactly one
of the two counters and append one result line. -/
def check (label : String) (condition : Bool) (detail : String) (s : RState) : RState :=
  if condition then
    { s with passed := s.passed + 1, results := s.results ++ [⟨label, true, detail⟩] }
  else
    { s with failed := s.failed + 1, results := s.results ++ [⟨label, false, detail⟩] }

/-- A raised Python exception, keeping just what the script consumes:
whether it is a `FileNotFoundError` (matched by a dedicated `except` clause in
`check_homebrew_cask`) and its `str(e)` rendering. -/
inductive PyExc where
  | fileNotFound (msg : String)
  | other (msg : String)
deriving Repr, DecidableEq

/-- `str(e)`. -/
def PyExc.str : PyExc → String
  | .fileNotFound m => m
  | .other m => m

/-- The two Info.plist fields the script consults (`plist.get(key, "")`
yields `""` when a field is absent; values are the usual strings). -/
structure Plist where
  shortVersionString : Option String
  bundleVersion : Option String
deriving Repr, DecidableEq

/-- `os.path.expanduser("~/Desktop/homebrew-tap/Casks/containerbar.rb")`
(home-directory expansion elided; the value is only ever interpolated into a
detail string). -/
def HOMEBREW_CASK : String := "~/Desktop/homebrew-tap/Casks/containerbar.rb"

/-- `os.path.join(PROJECT_ROOT, "dist", "ContainerBar.app")` (project root
elided; the value is only ever interpolated into a detail string). -/
def APP_BUNDLE : String := "dist/ContainerBar.app"

/-- Snapshot of everything outside the process that one run can observe.
Command results are `(returncode, raw stdout)` pairs before the `.strip()`
that the helper `run` applies; `.error e` means the operation raised. -/
structure Env where
  /-- `open(INFO_PLIST, "rb")` + `plistlib.load` -/
  openPlist : Except PyExc Plist
  /-- `open(CHANGELOG).read()` -/
  openChangelog : Except PyExc String
  /-- `subprocess.run("git tag -l vX", shell=True)`: `(returncode, stdout)` -/
  runGitTag : Except PyExc (Int × String)
  /-- `open(HOMEBREW_CASK).read()` -/
  openCask : Except PyExc String
  /-- `subprocess.run("gh release view vX --repo ...", shell=True)` -/
  runGhView : Except PyExc (Int × String)
  /-- `subprocess.run("gh release view vX ... --json assets ...", shell=True)` -/
  runGhAssets : Except PyExc (Int × String)
  /-- `urllib.request.urlopen(...).read().decode("utf-8")` -/
  fetchAppcast : Except PyExc String
  /-- `os.path.isdir(APP_BUNDLE)` -/
  appBundleIsDir : Bool
  /-- the shell-form `spctl` invocation made through `run` -/
  runSpctlShell : Except PyExc (Int × String)
  /-- the list-form `subprocess.run(["spctl", ...])`: `(stdout, stderr)`;
  this form raises `FileNotFoundError` when the binary is absent -/
  runSpctlCapture : Except PyExc (String × String)

/-- The helper `run(cmd)`: `(result.returncode, result.stdout.strip())`. -/
def pyRun (r : Except PyExc (Int × String)) : Except PyExc (Int × String) :=
  r.map (fun p => (p.1, pyStrip p.2))

/-- `check_info_plist(version)`: two results; the catch-all `except` turns a
read/parse failure into two failed results (the second with the fixed detail
`"could not read"`). Never raises. -/
def check_info_plist (version : String) (env : Env) (s : RState) : RState :=
  let s := s.addCall .plistRead
  match env.openPlist with
  | .ok plist =>
    let plist_version := plist.shortVersionString.getD ""
    let build_number := plist.bundleVersion.getD ""
    let s := check "Info.plist version" (plist_version == version) plist_version s
    check "Info.plist build" (build_number != "") build_number s
  | .error e =>
    let s := check "Info.plist version" false e.str s
    check "Info.plist build" false "could not read" s

/-- `check_changelog(version)`: one result; catch-all `except`. Never
raises. -/
def check_changelog (version : String) (env : Env) (s : RState) : RState :=
  let s := s.addCall .changelogRead
  match env.openChangelog with
  | .ok content => check "CHANGELOG.md entry found" (changelogFound version content) "" s
  | .error e => check "CHANGELOG.md entry found" false e.str s

/-- `check_git_tag(version)`: the script invokes `run(f"git tag -l \x7btag\x7d")`
twice (`rc, _ = run(...)` then `_, tags = run(...)`); there is no `try`, so a
raising invocation propagates. -/
def check_git_tag (version : String) (env : Env) (s : RState) :
    Except (PyExc × RState) RState :=
  let tag := "v" ++ version
  let s := s.addCall .gitTagCmd
  match pyRun env.runGitTag with
  | .error e => .error (e, s)
  | .ok _ =>
    let s := s.addCall .gitTagCmd
    match pyRun env.runGitTag with
    | .error e => .error (e, s)
    | .ok (_, tags) =>
      .ok (check "Git tag exists" ((pySplitNl tags).contains tag) tag s)

/-- `check_homebrew_cask(version)`: one result; `except FileNotFoundError`
gets the fixed path detail, any other exception its `str`. Never raises. -/
def check_homebrew_cask (version : String) (env : Env) (s : RState) : RState :=
  let s := s.addCall .caskRead
  match env.openCask with
  | .ok content =>
    let cask_version :=
      match caskSearch content.toList with
      | some g => String.mk g
      | none => ""
    check "Homebrew cask version" (cask_version == version) cask_version s
  | .error (.fileNotFound _) =>
    check "Homebrew cask version" false ("file not found: " ++ HOMEBREW_CASK) s
  | .error (.other m) => check "Homebrew cask version" false m s

/-- `check_github_release(version)`: first result from the release-view call;
the asset check either inspects the follow-up asset-list call (when `rc == 0`)
or is forced to failed with detail `"release not found"` without invoking it.
No `try`, so a raising command invocation propagates. -/
def check_github_release (version : String) (env : Env) (s : RState) :
    Except (PyExc × RState) RState :=
  let tag := "v" ++ version
  let s := s.addCall .ghViewCmd
  match pyRun env.runGhView with
  | .error e => .error (e, s)
  | .ok (rc, _) =>
    let s := check "GitHub release exists" (rc == 0) tag s
    if rc == 0 then
      let s := s.addCall .ghAssetsCmd
      match pyRun env.runGhAssets with
      | .error e => .error (e, s)
      | .ok (_, assets) =>
        .ok (check "Release asset ContainerBar.zip uploaded"
          (hasSub "ContainerBar.zip".toList assets.toList) "" s)
    else
      .ok (check "Release asset ContainerBar.zip uploaded" false "release not found" s)

/-- `check_appcast(version)`: one result; pass condition is the plain Python
substring test `version in data`; catch-all `except`. Never raises. -/
def check_appcast (version : String) (env : Env) (s : RState) : RState :=
  let s := s.addCall .appcastFetch
  match env.fetchAppcast with
  | .ok data =>
    check "Appcast contains version" (hasSub version.toList data.toList)
      ("v" ++ version) s
  | .error e => check "Appcast contains version" false e.str s

/-- `check_notarization()`: short-circuits when the bundle directory is
missing; otherwise invokes `spctl` twice (once through `run`, whose output is
discarded, once through list-form `subprocess.run` capturing both streams).
No `try`, so a raising invocation propagates. -/
def check_notarization (env : Env) (s : RState) : Except (PyExc × RState) RState :=
  if env.appBundleIsDir then
    let s := s.addCall .spctlCmd
    match pyRun env.runSpctlShell with
    | .error e => .error (e, s)
    | .ok _ =>
      let s := s.addCall .spctlCmd
      match env.runSpctlCapture with
      | .error e => .error (e, s)
      | .ok (out, err) =>
        let combined := out ++ err
        let accepted := hasSub "accepted".toList (lowerStr combined).toList
        .ok (check "App notarization valid" accepted
          (if accepted then "accepted" else pyStrip combined) s)
  else
    .ok (check "App notarization valid" false ("app not found: " ++ APP_BUNDLE) s)

/-- The adapter sequence in `main` (lines 152–158): the seven check functions
run in order with no surrounding `try`; an exception escaping one of them
aborts the remaining ones. -/
def runAdapters (version : String) (env : Env) : Except (PyExc × RState) RState :=
  let s := check_info_plist version env RState.init
  let s := check_changelog version env s
  match check_git_tag version env s with
  | .error es => .error es
  | .ok s1 =>
    let s := check_homebrew_cask version env s1
    match check_github_release version env s with
    | .error es => .error es
    | .ok s2 =>
      let s := check_appcast version env s2
      check_notarization env s

/-- How one run ends: the usage-error path (usage text printed, exit 2), a
completed run (final state plus `sys.exit(1 if failed > 0 else 0)`), or an
abort by an exception that no check function caught. -/
inductive Outcome where
  | usage
  | completed (final : RState) (exitCode : Nat)
  | aborted (exc : PyExc) (atAbort : RState)
deriving Repr, DecidableEq

/-- `main` after the argument check: run the adapters, then derive the exit
status from the final `failed` counter. -/
def mainVersion (version : String) (env : Env) : Outcome :=
  match runAdapters version env with
  | .ok s => .completed s (if s.failed > 0 then 1 else 0)
  | .error (e, s) => .aborted e s

/-- `main`: `len(sys.argv) != 2` prints usage and exits 2 before any check;
otherwise the version is `sys.argv[1]`. `argv` here is the full `sys.argv`
including the script name. -/
def mainArgv (argv : List String) (env : Env) : Outcome :=
  if argv.length = 2 then mainVersion (argv.getD 1 "") env else .usage

/-- Exit status of a run: 2 on the usage path, the derived status on a
completed run, none on an uncaught-exception abort. -/
def Outcome.exitStatus : Outcome → Option Nat
  | .usage => some 2
  | .completed _ e => some e
  | .aborted _ _ => none

/-- The `[PASS]`/`[FAIL]` lines a run produced. -/
def Outcome.resultsList : Outcome → List CheckResult
  | .usage => []
  | .completed s _ => s.results
  | .aborted _ s => s.results

/-- The external interactions a run performed. -/
def Outcome.callsList : Outcome → List Call
  | .usage => []
  | .completed s _ => s.calls
  | .aborted _ s => s.calls

/-- Final value of the global `passed` counter. -/
def Outcome.passedCount : Outcome → Nat
  | .usage => 0
  | .completed s _ => s.passed
  | .aborted _ s => s.passed

/-- Final value of the global `failed` counter. -/
def Outcome.failedCount : Outcome → Nat
  | .usage => 0
  | .completed s _ => s.failed
  | .aborted _ s => s.failed

/-- Did the run get past the argument check and through all seven check
functions? -/
def Outcome.isCompleted : Outcome → Bool
  | .completed _ _ => true
  | _ => false

/-- Did an uncaught exception abort the run? -/
def Outcome.isAborted : Outcome → Bool
  | .aborted _ _ => true
  | _ => false

/-! ### Concrete environments used as witnesses and counterexamples -/

/-- A run in which every external source is reachable and consistent with
version `1.2.0`. -/
def envHappy : Env where
  openPlist := .ok ⟨some "1.2.0", some "42"⟩
  openChangelog := .ok "# Changelog\n\n## [1.2.0]\n- fixes\n"
  runGitTag := .ok (0, "v1.2.0\nv1.2.0-beta\n")
  openCask := .ok "cask \"containerbar\" do\n  version \"1.2.0\"\nend\n"
  runGhView := .ok (0, "v1.2.0 release info")
  runGhAssets := .ok (0, "ContainerBar.zip\n")
  fetchAppcast := .ok "<rss>ContainerBar 1.2.0</rss>"
  appBundleIsDir := true
  runSpctlShell := .ok (0, "")
  runSpctlCapture := .ok ("", "dist/ContainerBar.app: accepted\nsource=Notarized Developer ID\n")

/-- Same run, except the `git tag -l` invocation raises an `OSError`. -/
def envFault : Env := { envHappy with runGitTag := .error (.other "boom") }

/-- Same run, except the `git tag -l` stdout carries a leading space. -/
def envPad : Env := { envHappy with runGitTag := .ok (0, " v1.2.0") }

/-- Same run, except `gh release view` exits 1 (release absent). -/
def envGhFail : Env := { envHappy with runGhView := .ok (1, "release not found") }

/-- Same run, except reading Info.plist raises. -/
def envPlistErr : Env :=
  { envHappy with openPlist := .error (.other "No such file or directory") }

/-! ### Helper lemmas about the aggregation helper `check` -/

/-- `check` appends exactly the one result line it was given. -/
theorem check_results_eq (l : String) (c : Bool) (d : String) (s : RState) :
    (check l c d s).results = s.results ++ [⟨l, c, d⟩] := by
  cases c <;> simp [check]

/-- `check` performs no external interaction. -/
theorem check_calls_eq (l : String) (c : Bool) (d : String) (s : RState) :
    (check l c d s).calls = s.calls := by
  cases c <;> simp [check]

/-- `check` bumps exactly one of the two counters. -/
theorem check_counts (l : String) (c : Bool) (d : String) (s : RState) :
    (check l c d s).passed + (check l c d s).failed = s.passed + s.failed + 1 := by
  cases c <;> simp [check] <;> omega

/-- The empty string is a substring of everything (`"" in data` is `True`). -/
theorem hasSub_nil (l : List Char) : hasSub [] l = true := by
  cases l <;> simp [hasSub, startsWithChars]

/-! ### The changelog pattern is literal-only -/

/-- Everything `re.escape` escapes is punctuation, never alphanumeric. -/
theorem mem_reSpecials_not_alnum (c : Char) (h : c ∈ reSpecials) :
    c.isAlphanum = false := by
  fin_cases h <;> decide

/-- Every regex metacharacter is in `re.escape`'s escape set. -/
theorem mem_regexMetas_mem_reSpecials (c : Char) (h : c ∈ regexMetas) :
    c ∈ reSpecials := by
  fin_cases h <;> decide

/-- Unfolding `regexLits` on an unescaped literal character. -/
theorem regexLits_cons_lit (c : Char) (t : List Char) (hne : c ≠ '\\')
    (hmeta : c ∉ regexMetas) :
    regexLits (c :: t) = (regexLits t).map (c :: ·) := by
  have hbeq : (c == '\\') = false := by simpa using hne
  rw [regexLits.eq_def]
  simp [hbeq, hmeta]

/-- Unfolding `regexLits` on a backslash-escaped punctuation character. -/
theorem regexLits_cons_esc (c : Char) (t : List Char) (halnum : c.isAlphanum = false) :
    regexLits ('\\' :: c :: t) = (regexLits t).map (c :: ·) := by
  rw [regexLits.eq_def]
  simp [halnum]

/-- Prepending `re.escape`d text to a pattern prepends the text literally. -/
theorem regexLits_reEscape_append (l rest : List Char) :
    regexLits (reEscapeChars l ++ rest) = (regexLits rest).map (l ++ ·) := by
  induction l with
  | nil =>
    simp only [reEscapeChars, List.nil_append]
    cases regexLits rest <;> simp
  | cons c t ih =>
    by_cases hc : c ∈ reSpecials
    · have halnum : c.isAlphanum = false := mem_reSpecials_not_alnum c hc
      simp only [reEscapeChars, if_pos hc, List.cons_append, List.nil_append]
      rw [regexLits_cons_esc c _ halnum, ih]
      cases regexLits rest <;> simp
    · have hne : c ≠ '\\' := fun h => hc (h ▸ (by decide : '\\' ∈ reSpecials))
      have hmeta : c ∉ regexMetas := fun hm => hc (mem_regexMetas_mem_reSpecials c hm)
      simp only [reEscapeChars, if_neg hc, List.cons_append, List.nil_append]
      rw [regexLits_cons_lit c _ hne hmeta, ih]
      cases regexLits rest <;> simp

/-- The changelog pattern always parses as the literal `## [<version>]`. -/
theorem regexLits_changelogPattern (v : String) :
    regexLits (changelogPattern v) =
      some ('#' :: '#' :: ' ' :: '[' :: (v.toList ++ [']'])) := by
  have h1 : regexLits ['\\', ']'] = some [']'] := by decide
  have h2 : regexLits (reEscapeChars v.toList ++ ['\\', ']']) = some (v.toList ++ [']']) := by
    rw [regexLits_reEscape_append, h1]
    rfl
  simp only [changelogPattern]
  rw [regexLits_cons_lit '#' _ (by decide) (by decide),
    regexLits_cons_lit '#' _ (by decide) (by decide),
    regexLits_cons_lit ' ' _ (by decide) (by decide),
    regexLits_cons_esc '[' _ (by decide), h2]
  rfl

/-- `changelogFound` is literal substring search for `## [<version>]`. -/
theorem changelogFound_eq (v content : String) :
    changelogFound v content =
      hasSub ("## [" ++ v ++ "]").toList content.toList := by
  have hl : ("## [" ++ v ++ "]").toList = '#' :: '#' :: ' ' :: '[' :: (v.toList ++ [']']) := by
    show ((("## [" ++ v) ++ "]").data = _)
    rw [String.data_append, String.data_append]
    rfl
  simp [changelogFound, reSearchLit, regexLits_changelogPattern v, hl]

/-! ### Per-adapter shape lemmas: how many results and which calls each
check function contributes -/

/-- `check` appends exactly one result line (length form). -/
theorem check_len (l : String) (c : Bool) (d : String) (s : RState) :
    (check l c d s).results.length = s.results.length + 1 := by
  rw [check_results_eq]; simp

theorem check_info_plist_shape (v : String) (env : Env) (s : RState) :
    (check_info_plist v env s).results.length = s.results.length + 2
    ∧ (check_info_plist v env s).passed + (check_info_plist v env s).failed
        = s.passed + s.failed + 2
    ∧ (check_info_plist v env s).calls = s.calls ++ [.plistRead] := by
  cases h : env.openPlist with
  | ok p =>
    refine ⟨?_, ?_, ?_⟩ <;>
      simp [check_info_plist, h, check_len, check_counts, check_calls_eq, RState.addCall]
  | error e =>
    refine ⟨?_, ?_, ?_⟩ <;>
      simp [check_info_plist, h, check_len, check_counts, check_calls_eq, RState.addCall]

theorem check_changelog_shape (v : String) (env : Env) (s : RState) :
    (check_changelog v env s).results.length = s.results.length + 1
    ∧ (check_changelog v env s).passed + (check_changelog v env s).failed
        = s.passed + s.failed + 1
    ∧ (check_changelog v env s).calls = s.calls ++ [.changelogRead] := by
  cases h : env.openChangelog with
  | ok content =>
    refine ⟨?_, ?_, ?_⟩ <;>
      simp [check_changelog, h, check_len, check_counts, check_calls_eq, RState.addCall]
  | error e =>
    refine ⟨?_, ?_, ?_⟩ <;>
      simp [check_changelog, h, check_len, check_counts, check_calls_eq, RState.addCall]

theorem check_homebrew_cask_shape (v : String) (env : Env) (s : RState) :
    (check_homebrew_cask v env s).results.length = s.results.length + 1
    ∧ (check_homebrew_cask v env s).passed + (check_homebrew_cask v env s).failed
        = s.passed + s.failed + 1
    ∧ (check_homebrew_cask v env s).calls = s.calls ++ [.caskRead] := by
  cases h : env.openCask with
  | ok content =>
    refine ⟨?_, ?_, ?_⟩ <;>
      simp [check_homebrew_cask, h, check_len, check_counts, check_calls_eq, RState.addCall]
  | error e =>
    cases e <;>
      refine ⟨?_, ?_, ?_⟩ <;>
        simp [check_homebrew_cask, h, check_len, check_counts, check_calls_eq, RState.addCall]

theorem check_appcast_shape (v : String) (env : Env) (s : RState) :
    (check_appcast v env s).results.length = s.results.length + 1
    ∧ (check_appcast v env s).passed + (check_appcast v env s).failed
        = s.passed + s.failed + 1
    ∧ (check_appcast v env s).calls = s.calls ++ [.appcastFetch] := by
  cases h : env.fetchAppcast with
  | ok data =>
    refine ⟨?_, ?_, ?_⟩ <;>
      simp [check_appcast, h, check_len, check_counts, check_calls_eq, RState.addCall]
  | error e =>
    refine ⟨?_, ?_, ?_⟩ <;>
      simp [check_appcast, h, check_len, check_counts, check_calls_eq, RState.addCall]

theorem check_git_tag_ok (v : String) (env : Env) (s s' : RState)
    (h : check_git_tag v env s = .ok s') :
    s'.results.length = s.results.length + 1
    ∧ s'.passed + s'.failed = s.passed + s.failed + 1
    ∧ s'.calls = s.calls ++ [.gitTagCmd, .gitTagCmd] := by
  cases hg : pyRun env.runGitTag with
  | error e => simp [check_git_tag, hg] at h
  | ok p =>
    obtain ⟨rc, tags⟩ := p
    simp only [check_git_tag, hg] at h
    cases h
    refine ⟨?_, ?_, ?_⟩ <;>
      simp [check_len, check_counts, check_calls_eq, RState.addCall]

theorem check_github_release_ok (v : String) (env : Env) (s s' : RState)
    (h : check_github_release v env s = .ok s') :
    s'.results.length = s.results.length + 2
    ∧ s'.passed + s'.failed = s.passed + s.failed + 2
    ∧ (s'.calls = s.calls ++ [.ghViewCmd]
        ∨ s'.calls = s.calls ++ [.ghViewCmd, .ghAssetsCmd]) := by
  cases hv : pyRun env.runGhView with
  | error e => simp [check_github_release, hv] at h
  | ok p =>
    obtain ⟨rc, out⟩ := p
    by_cases hrc : (rc == 0) = true
    · cases ha : pyRun env.runGhAssets with
      | error e => simp [check_github_release, hv, hrc, ha] at h
      | ok q =>
        obtain ⟨rc2, assets⟩ := q
        simp only [check_github_release, hv, hrc, if_true, ha] at h
        cases h
        refine ⟨?_, ?_, Or.inr ?_⟩ <;>
          simp [check_len, check_counts, check_calls_eq, RState.addCall]
    · simp only [check_github_release, hv, hrc, Bool.false_eq_true, if_false] at h
      cases h
      refine ⟨?_, ?_, Or.inl ?_⟩ <;>
        simp [check_len, check_counts, check_calls_eq, RState.addCall]

theorem check_notarization_ok (env : Env) (s s' : RState)
    (h : check_notarization env s = .ok s') :
    s'.results.length = s.results.length + 1
    ∧ s'.passed + s'.failed = s.passed + s.failed + 1
    ∧ (s'.calls = s.calls ∨ s'.calls = s.calls ++ [.spctlCmd, .spctlCmd]) := by
  by_cases hd : env.appBundleIsDir = true
  · cases h1 : pyRun env.runSpctlShell with
    | error e => simp [check_notarization, hd, h1] at h
    | ok p =>
      cases h2 : env.runSpctlCapture with
      | error e => simp [check_notarization, hd, h1, h2] at h
      | ok q =>
        obtain ⟨out, err⟩ := q
        simp only [check_notarization, hd, if_true, h1, h2] at h
        cases h
        refine ⟨?_, ?_, Or.inr ?_⟩ <;>
          simp [check_len, check_counts, check_calls_eq, RState.addCall]
  · simp only [check_notarization, hd, Bool.false_eq_true, if_false] at h
    cases h
    refine ⟨?_, ?_, Or.inl ?_⟩ <;>
      simp [check_len, check_counts, check_calls_eq, RState.addCall]

/-- A completed pass through all seven check functions records exactly nine
results, bumps the counters exactly nine times in total, and leaves one of
four possible interaction traces (asset-list call present or not, `spctl`
pair present or not). -/
theorem runAdapters_ok_shape (v : String) (env : Env) (s : RState)
    (h : runAdapters v env = .ok s) :
    s.passed + s.failed = 9
    ∧ s.results.length = 9
    ∧ (s.calls = [.plistRead, .changelogRead, .gitTagCmd, .gitTagCmd, .caskRead,
          .ghViewCmd, .appcastFetch]
       ∨ s.calls = [.plistRead, .changelogRead, .gitTagCmd, .gitTagCmd, .caskRead,
          .ghViewCmd, .appcastFetch, .spctlCmd, .spctlCmd]
       ∨ s.calls = [.plistRead, .changelogRead, .gitTagCmd, .gitTagCmd, .caskRead,
          .ghViewCmd, .ghAssetsCmd, .appcastFetch]
       ∨ s.calls = [.plistRead, .changelogRead, .gitTagCmd, .gitTagCmd, .caskRead,
          .ghViewCmd, .ghAssetsCmd, .appcastFetch, .spctlCmd, .spctlCmd]) := by
  unfold runAdapters at h
  dsimp only at h
  obtain ⟨h1len, h1sum, h1calls⟩ := check_info_plist_shape v env RState.init
  obtain ⟨h2len, h2sum, h2calls⟩ :=
    check_changelog_shape v env (check_info_plist v env RState.init)
  cases hg : check_git_tag v env (check_changelog v env (check_info_plist v env RState.init)) with
  | error es => rw [hg] at h; simp at h
  | ok s1 =>
    rw [hg] at h
    dsimp only at h
    obtain ⟨h3len, h3sum, h3calls⟩ := check_git_tag_ok v env _ s1 hg
    obtain ⟨h4len, h4sum, h4calls⟩ := check_homebrew_cask_shape v env s1
    cases hgh : check_github_release v env (check_homebrew_cask v env s1) with
    | error es => rw [hgh] at h; simp at h
    | ok s2 =>
      rw [hgh] at h
      dsimp only at h
      obtain ⟨h5len, h5sum, h5calls⟩ := check_github_release_ok v env _ s2 hgh
      obtain ⟨h6len, h6sum, h6calls⟩ := check_appcast_shape v env s2
      obtain ⟨h7len, h7sum, h7calls⟩ := check_notarization_ok env _ s h
      have h0 : (check_changelog v env (check_info_plist v env RState.init)).calls
          = [Call.plistRead, Call.changelogRead] := by
        rw [h2calls, h1calls]; rfl
      have hsum0 : RState.init.passed + RState.init.failed = 0 := rfl
      have hlen0 : RState.init.results.length = 0 := rfl
      refine ⟨by omega, by omega, ?_⟩
      rcases h5calls with h5c | h5c <;> rcases h7calls with h7c | h7c <;>
        simp [h7c, h6calls, h5c, h4calls, h3calls, h0]

/-! ### From the adapter pass to `main`'s outcome -/

/-- A completed outcome of `mainVersion` comes from a completed adapter pass,
and its exit status is derived from the final `failed` counter exactly as
`sys.exit(1 if failed > 0 else 0)` does. -/
theorem mainVersion_completed (v : String) (env : Env) (s : RState) (e : Nat)
    (h : mainVersion v env = .completed s e) :
    runAdapters v env = .ok s ∧ e = (if s.failed > 0 then 1 else 0) := by
  unfold mainVersion at h
  cases hr : runAdapters v env with
  | ok s0 =>
    rw [hr] at h
    cases h
    exact ⟨rfl, rfl⟩
  | error p =>
    obtain ⟨e0, s0⟩ := p
    rw [hr] at h
    cases h

/-- A completed outcome of `mainArgv` means the argument check passed and
`mainVersion` completed on `sys.argv[1]`. -/
theorem mainArgv_completed (argv : List String) (env : Env) (s : RState) (e : Nat)
    (h : mainArgv argv env = .completed s e) :
    argv.length = 2 ∧ mainVersion (argv.getD 1 "") env = .completed s e := by
  unfold mainArgv at h
  by_cases hl : argv.length = 2
  · rw [if_pos hl] at h
    exact ⟨hl, h⟩
  · rw [if_neg hl] at h
    cases h

/-! ### Claim theorems -/

/-- C1: for every run in which the version-argument check passes and all
seven adapters complete, the program's exit status is 0 if and only if the
final failed count equals 0, and otherwise the exit status is 1. -/
theorem C1_exit_status_iff_no_failure (argv : List String) (env : Env)
    (h : (mainArgv argv env).isCompleted = true) :
    ((mainArgv argv env).exitStatus = some 0
      ↔ (mainArgv argv env).failedCount = 0)
    ∧ ((mainArgv argv env).failedCount ≠ 0
      → (mainArgv argv env).exitStatus = some 1) := by
  cases ho : mainArgv argv env with
  | usage => rw [ho] at h; simp [Outcome.isCompleted] at h
  | aborted e0 s0 => rw [ho] at h; simp [Outcome.isCompleted] at h
  | completed s e =>
    obtain ⟨-, hmv⟩ := mainArgv_completed argv env s e ho
    obtain ⟨-, he⟩ := mainVersion_completed _ env s e hmv
    subst he
    simp only [Outcome.exitStatus, Outcome.failedCount]
    by_cases hf : s.failed = 0
    · simp [hf]
    · have hp : s.failed > 0 := Nat.pos_of_ne_zero hf
      simp [hf, hp]

/-- C1 witness: a concrete completed run with failed count 0 and exit 0. -/
theorem C1_witness :
    (mainArgv ["validate-release.py", "1.2.0"] envHappy).isCompleted = true
    ∧ (((mainArgv ["validate-release.py", "1.2.0"] envHappy).exitStatus = some 0
        ↔ (mainArgv ["validate-release.py", "1.2.0"] envHappy).failedCount = 0)
      ∧ ((mainArgv ["validate-release.py", "1.2.0"] envHappy).failedCount ≠ 0
        → (mainArgv ["validate-release.py", "1.2.0"] envHappy).exitStatus = some 1)) :=
  ⟨by decide, C1_exit_status_iff_no_failure ["validate-release.py", "1.2.0"] envHappy (by decide)⟩

/-- C2 is false as stated: this fully successful concrete run records nine
checks (with `passed + failed = 9`), not eight. -/
theorem C2_counterexample :
    (mainArgv ["validate-release.py", "1.2.0"] envHappy).passedCount
      + (mainArgv ["validate-release.py", "1.2.0"] envHappy).failedCount = 9
    ∧ (mainArgv ["validate-release.py", "1.2.0"] envHappy).resultsList.length = 9
    ∧ (9 : Nat) ≠ 8 := by
  refine ⟨by decide, by decide, by decide⟩

/-- C2 amended: for every completed run, the final passed count plus the
final failed count equals the number of checks recorded, and that total is
the constant nine (two from Info.plist, one each from changelog, git tag,
cask and appcast, two from the GitHub release, one from notarization),
regardless of which external sources are reachable. -/
theorem C2_total_is_nine (v : String) (env : Env)
    (h : (mainVersion v env).isCompleted = true) :
    (mainVersion v env).passedCount + (mainVersion v env).failedCount
      = (mainVersion v env).resultsList.length
    ∧ (mainVersion v env).resultsList.length = 9 := by
  cases ho : mainVersion v env with
  | usage => rw [ho] at h; simp [Outcome.isCompleted] at h
  | aborted e0 s0 => rw [ho] at h; simp [Outcome.isCompleted] at h
  | completed s e =>
    obtain ⟨hr, -⟩ := mainVersion_completed v env s e ho
    obtain ⟨hsum, hlen, -⟩ := runAdapters_ok_shape v env s hr
    simp [Outcome.passedCount, Outcome.failedCount, Outcome.resultsList, hsum, hlen]

/-- C2 amended witness at a concrete completed run. -/
theorem C2_witness :
    (mainVersion "1.2.0" envHappy).isCompleted = true
    ∧ ((mainVersion "1.2.0" envHappy).passedCount
        + (mainVersion "1.2.0" envHappy).failedCount
        = (mainVersion "1.2.0" envHappy).resultsList.length
      ∧ (mainVersion "1.2.0" envHappy).resultsList.length = 9) :=
  ⟨by decide, C2_total_is_nine "1.2.0" envHappy (by decide)⟩

/-- C3 is false as stated: when the tag-list command invocation raises, the
run aborts (no adapter-labelled failed CheckResult is recorded for the git
check, and the later adapters — starting with the cask read — never run). -/
theorem C3_counterexample :
    (mainVersion "1.2.0" envFault).isAborted = true
    ∧ ((mainVersion "1.2.0" envFault).resultsList.any
        (fun r => r.label == "Git tag exists")) = false
    ∧ (mainVersion "1.2.0" envFault).callsList.count Call.caskRead = 0 := by
  refine ⟨by decide, by decide, by decide⟩

/-- C3 amended: adapters catch only the errors their own `try/except` blocks
anticipate; the orchestrator does not wrap adapter invocations, so an
unexpected fault escaping an adapter (here: the tag-list command invocation
raising) aborts the run with that exception, records no CheckResult for the
faulting adapter, and skips all remaining adapters. -/
theorem C3_unhandled_fault_aborts (v : String) (env : Env) (e : PyExc)
    (h : env.runGitTag = .error e) :
    mainVersion v env = .aborted e
      ((check_changelog v env (check_info_plist v env RState.init)).addCall .gitTagCmd) := by
  simp [mainVersion, runAdapters, check_git_tag, pyRun, h, Except.map]

/-- C3 amended witness: the concrete faulting run aborts exactly there. -/
theorem C3_witness :
    envFault.runGitTag = .error (.other "boom")
    ∧ mainVersion "1.2.0" envFault = .aborted (.other "boom")
        ((check_changelog "1.2.0" envFault
          (check_info_plist "1.2.0" envFault RState.init)).addCall .gitTagCmd) :=
  ⟨rfl, C3_unhandled_fault_aborts "1.2.0" envFault (.other "boom") rfl⟩

/-- C4: with zero positional arguments (`argv` is just the script name) or
two or more positional arguments (length at least three), the program takes
the usage path: exit status 2, no result line, no adapter interaction. -/
theorem C4_usage_error_exits_two (argv : List String) (env : Env)
    (h : argv.length = 1 ∨ 3 ≤ argv.length) :
    mainArgv argv env = .usage
    ∧ (mainArgv argv env).exitStatus = some 2
    ∧ (mainArgv argv env).resultsList = []
    ∧ (mainArgv argv env).callsList = [] := by
  have hne : ¬ argv.length = 2 := by omega
  unfold mainArgv
  rw [if_neg hne]
  exact ⟨rfl, rfl, rfl, rfl⟩

/-- C4 witness: the zero-positional-argument invocation. -/
theorem C4_witness :
    ((["validate-release.py"] : List String).length = 1
      ∨ 3 ≤ (["validate-release.py"] : List String).length)
    ∧ (mainArgv ["validate-release.py"] envHappy = .usage
      ∧ (mainArgv ["validate-release.py"] envHappy).exitStatus = some 2
      ∧ (mainArgv ["validate-release.py"] envHappy).resultsList = []
      ∧ (mainArgv ["validate-release.py"] envHappy).callsList = []) :=
  ⟨Or.inl rfl, C4_usage_error_exits_two ["validate-release.py"] envHappy (Or.inl rfl)⟩

/-- C5: the changelog check's pass condition equals literal substring search
for `## [<version>]` (the escaped pattern always parses as a pure literal, so
the search cannot raise); concretely, version `1.2.0` matches `## [1.2.0]`
but not `## [1.2.1]`, and the metacharacter version `1.2+0` matches only its
exact literal occurrence. -/
theorem C5_changelog_literal_search (v content : String) :
    changelogFound v content = hasSub ("## [" ++ v ++ "]").toList content.toList
    ∧ (regexLits (changelogPattern v)).isSome = true
    ∧ changelogFound "1.2.0" "## [1.2.0]\n- fix" = true
    ∧ changelogFound "1.2.0" "## [1.2.1]\n- fix" = false
    ∧ changelogFound "1.2+0" "text ## [1.2+0] more" = true
    ∧ changelogFound "1.2+0" "## [1.2.0] ## [1q2+0]" = false := by
  refine ⟨changelogFound_eq v content, ?_, by decide, by decide, by decide, by decide⟩
  rw [regexLits_changelogPattern]
  rfl

/-- C6 is false as stated: with raw tag-list output `" v1.2.0"` (leading
space) the check passes, although `"v1.2.0"` is not an exact line of the
newline-split raw output — `run` strips the whole output first. -/
theorem C6_counterexample :
    check_git_tag "1.2.0" envPad RState.init
      = .ok ⟨1, 0, [⟨"Git tag exists", true, "v1.2.0"⟩], [.gitTagCmd, .gitTagCmd]⟩
    ∧ ((pySplitNl " v1.2.0").contains "v1.2.0") = false := by
  exact ⟨rfl, by decide⟩

/-- C6 amended: the git-tag check passes iff the derived tag name `v<version>`
appears as an exact line of the newline-split output after `run` strips
leading and trailing whitespace from the whole output; the two cited example
outputs behave exactly as the claim states. -/
theorem C6_git_tag_exact_line (v : String) (env : Env) (rc : Int)
    (out : String) (s : RState) (h : env.runGitTag = .ok (rc, out)) :
    check_git_tag v env s = .ok (check "Git tag exists"
        ((pySplitNl (pyStrip out)).contains ("v" ++ v)) ("v" ++ v)
        ((s.addCall .gitTagCmd).addCall .gitTagCmd))
    ∧ (((pySplitNl (pyStrip out)).contains ("v" ++ v)) = true
        ↔ ("v" ++ v) ∈ pySplitNl (pyStrip out))
    ∧ (pySplitNl (pyStrip "v1.2.0\nv1.2.0-beta\n")).contains "v1.2.0" = true
    ∧ (pySplitNl (pyStrip "v1.2.0-beta")).contains "v1.2.0" = false := by
  refine ⟨?_, ?_, by decide, by decide⟩
  · simp [check_git_tag, pyRun, h, Except.map]
  · exact List.elem_iff

/-- C6 amended witness at the claim's own example output. -/
theorem C6_witness :
    envHappy.runGitTag = .ok (0, "v1.2.0\nv1.2.0-beta\n")
    ∧ (check_git_tag "1.2.0" envHappy RState.init = .ok (check "Git tag exists"
          ((pySplitNl (pyStrip "v1.2.0\nv1.2.0-beta\n")).contains ("v" ++ "1.2.0"))
          ("v" ++ "1.2.0")
          ((RState.init.addCall .gitTagCmd).addCall .gitTagCmd))
      ∧ (((pySplitNl (pyStrip "v1.2.0\nv1.2.0-beta\n")).contains ("v" ++ "1.2.0")) = true
          ↔ ("v" ++ "1.2.0") ∈ pySplitNl (pyStrip "v1.2.0\nv1.2.0-beta\n"))
      ∧ (pySplitNl (pyStrip "v1.2.0\nv1.2.0-beta\n")).contains "v1.2.0" = true
      ∧ (pySplitNl (pyStrip "v1.2.0-beta")).contains "v1.2.0" = false) :=
  ⟨rfl, C6_git_tag_exact_line "1.2.0" envHappy 0 "v1.2.0\nv1.2.0-beta\n" RState.init rfl⟩

/-- C7: when the release-metadata call returns a non-success status, the
release-exists check and the asset check are both recorded failed, the asset
check's detail is exactly "release not found", and the asset-listing call is
not performed (the trace gains only the release-view call). -/
theorem C7_release_missing_forces_asset_fail (v : String) (env : Env)
    (rc : Int) (out : String) (s : RState)
    (h : env.runGhView = .ok (rc, out)) (hrc : rc ≠ 0) :
    check_github_release v env s
      = .ok (check "Release asset ContainerBar.zip uploaded" false "release not found"
          (check "GitHub release exists" false ("v" ++ v) (s.addCall .ghViewCmd)))
    ∧ (check "Release asset ContainerBar.zip uploaded" false "release not found"
        (check "GitHub release exists" false ("v" ++ v) (s.addCall .ghViewCmd))).calls
      = s.calls ++ [.ghViewCmd] := by
  have hbeq : (rc == 0) = false := by simpa using hrc
  refine ⟨?_, ?_⟩
  · simp [check_github_release, pyRun, h, Except.map, hbeq]
  · simp [check_calls_eq, RState.addCall]

/-- C7 witness: a concrete run whose release-view call exits 1. -/
theorem C7_witness :
    envGhFail.runGhView = .ok (1, "release not found") ∧ (1 : Int) ≠ 0
    ∧ (check_github_release "1.2.0" envGhFail RState.init
        = .ok (check "Release asset ContainerBar.zip uploaded" false "release not found"
            (check "GitHub release exists" false ("v" ++ "1.2.0")
              (RState.init.addCall .ghViewCmd)))
      ∧ (check "Release asset ContainerBar.zip uploaded" false "release not found"
          (check "GitHub release exists" false ("v" ++ "1.2.0")
            (RState.init.addCall .ghViewCmd))).calls
        = RState.init.calls ++ [.ghViewCmd]) :=
  ⟨rfl, by decide,
    C7_release_missing_forces_asset_fail "1.2.0" envGhFail 1 "release not found"
      RState.init rfl (by decide)⟩

/-- C8 is false as stated: when the Info.plist read raises, both checks are
failed, but only the version check carries the parse error (`str(e)`); the
build check's detail is the fixed string "could not read", not the parse
error. -/
theorem C8_counterexample :
    (check_info_plist "1.2.0" envPlistErr RState.init).results
      = [⟨"Info.plist version", false, "No such file or directory"⟩,
         ⟨"Info.plist build", false, "could not read"⟩]
    ∧ ("could not read" : String) ≠ "No such file or directory" :=
  ⟨rfl, by decide⟩

/-- C8 amended: when the metadata file is missing, unreadable or malformed,
both checks are reported failed and no exception escapes the adapter (it is a
total function into `RState`); the version check's detail is the parse error
and the build check's detail is the fixed string "could not read". -/
theorem C8_plist_error_two_failures (v : String) (env : Env) (e : PyExc)
    (s : RState) (h : env.openPlist = .error e) :
    check_info_plist v env s
      = check "Info.plist build" false "could not read"
          (check "Info.plist version" false e.str (s.addCall .plistRead)) := by
  simp [check_info_plist, h]

/-- C8 amended witness at the concrete failing read. -/
theorem C8_witness :
    envPlistErr.openPlist = .error (.other "No such file or directory")
    ∧ check_info_plist "1.2.0" envPlistErr RState.init
      = check "Info.plist build" false "could not read"
          (check "Info.plist version" false (PyExc.other "No such file or directory").str
            (RState.init.addCall .plistRead)) :=
  ⟨rfl, C8_plist_error_two_failures "1.2.0" envPlistErr
    (.other "No such file or directory") RState.init rfl⟩

/-- C9 is false as stated: even on this fully successful run the VCS tag-list
command is invoked twice, not once. -/
theorem C9_counterexample :
    (mainArgv ["validate-release.py", "1.2.0"] envHappy).callsList.count Call.gitTagCmd = 2
    ∧ (2 : Nat) ≠ 1 :=
  ⟨by decide, by decide⟩

/-- C9 amended: in every completed run, the bundle-metadata read, changelog
read, manifest read, release-metadata call and feed fetch each happen exactly
once and the asset-list call at most once, but the tag-list command is
invoked exactly twice, and the signing-assessment command twice whenever it
is invoked at all (zero times when the bundle is absent). -/
theorem C9_fetch_counts (v : String) (env : Env)
    (h : (mainVersion v env).isCompleted = true) :
    (mainVersion v env).callsList.count Call.gitTagCmd = 2
    ∧ ((mainVersion v env).callsList.count Call.spctlCmd = 0
        ∨ (mainVersion v env).callsList.count Call.spctlCmd = 2)
    ∧ (mainVersion v env).callsList.count Call.plistRead = 1
    ∧ (mainVersion v env).callsList.count Call.changelogRead = 1
    ∧ (mainVersion v env).callsList.count Call.caskRead = 1
    ∧ (mainVersion v env).callsList.count Call.ghViewCmd = 1
    ∧ (mainVersion v env).callsList.count Call.ghAssetsCmd ≤ 1
    ∧ (mainVersion v env).callsList.count Call.appcastFetch = 1 := by
  cases ho : mainVersion v env with
  | usage => rw [ho] at h; simp [Outcome.isCompleted] at h
  | aborted e0 s0 => rw [ho] at h; simp [Outcome.isCompleted] at h
  | completed s e =>
    obtain ⟨hr, -⟩ := mainVersion_completed v env s e ho
    obtain ⟨-, -, hcalls⟩ := runAdapters_ok_shape v env s hr
    simp only [Outcome.callsList]
    rcases hcalls with hc | hc | hc | hc <;> rw [hc] <;> decide

/-- C9 amended witness at a concrete completed run. -/
theorem C9_witness :
    (mainVersion "1.2.0" envHappy).isCompleted = true
    ∧ ((mainVersion "1.2.0" envHappy).callsList.count Call.gitTagCmd = 2
      ∧ ((mainVersion "1.2.0" envHappy).callsList.count Call.spctlCmd = 0
          ∨ (mainVersion "1.2.0" envHappy).callsList.count Call.spctlCmd = 2)
      ∧ (mainVersion "1.2.0" envHappy).callsList.count Call.plistRead = 1
      ∧ (mainVersion "1.2.0" envHappy).callsList.count Call.changelogRead = 1
      ∧ (mainVersion "1.2.0" envHappy).callsList.count Call.caskRead = 1
      ∧ (mainVersion "1.2.0" envHappy).callsList.count Call.ghViewCmd = 1
      ∧ (mainVersion "1.2.0" envHappy).callsList.count Call.ghAssetsCmd ≤ 1
      ∧ (mainVersion "1.2.0" envHappy).callsList.count Call.appcastFetch = 1) :=
  ⟨by decide, C9_fetch_counts "1.2.0" envHappy (by decide)⟩

/-- C10: when the appcast fetch succeeds and decodes, running the update-feed
adapter with the empty version always records a passing check, because the
pass condition is plain substring containment and the empty string is a
substring of every document. -/
theorem C10_empty_version_always_passes (env : Env) (s : RState) (data : String)
    (h : env.fetchAppcast = .ok data) :
    check_appcast "" env s
      = check "Appcast contains version" true "v" (s.addCall .appcastFetch) := by
  have hsub : hasSub [] data.data = true := hasSub_nil data.data
  simp [check_appcast, h, hsub]

/-- C10 witness at a concrete successful fetch. -/
theorem C10_witness :
    envHappy.fetchAppcast = .ok "<rss>ContainerBar 1.2.0</rss>"
    ∧ check_appcast "" envHappy RState.init
      = check "Appcast contains version" true "v" (RState.init.addCall .appcastFetch) :=
  ⟨rfl, C10_empty_version_always_passes envHappy RState.init "<rss>ContainerBar 1.2.0</rss>" rfl⟩
